import Mathlib

/-!
Verification development for `qa/tasks/mds_pre_upgrade.py` (Ceph MDS
pre-upgrade convergence) together with the convergence-controller design
described in the accompanying specification.

The task function in `mds_pre_upgrade.py` is embedded directly.  The
helpers it calls on `Filesystem` (`getinfo`, `set_allow_standby_replay`,
`set_max_mds`, `reach_max_mds`) live in `qa/tasks/cephfs/filesystem.py`,
which is not part of this fragment; the convergence loop behind
`reach_max_mds` and the configuration commander are therefore modelled
from the specification (sections 3, 4.2, 4.3 and 7).
-/

/-- State of an MDS daemon in the cluster map (spec section 3). -/
inductive MdsState
  | active
  | stopping
  | starting
  | standbyReplay
deriving DecidableEq, Repr

/-- A rank assignment: rank number, daemon id and daemon state (spec section 3). -/
structure RankAssignment where
  rank : Nat
  daemon_id : Nat
  state : MdsState
deriving DecidableEq, Repr

/-- Immutable snapshot of the cluster map (spec section 3). -/
structure ClusterStatus where
  ranks : List RankAssignment
  standbys : List Nat
  allow_standby_replay : Bool
  max_mds : Nat
deriving DecidableEq, Repr

/-- Desired configuration supplied by the caller (spec section 3). -/
structure TargetConfig where
  max_mds : Nat
  allow_standby_replay : Bool
deriving DecidableEq, Repr

/-- Fault taxonomy of the control plane (spec section 7). -/
inductive Fault
  | controlPlaneUnavailable
  | commandRejected
  | malformedStatus
deriving DecidableEq, Repr

/-- Typed result returned to the caller, carrying the last observed
snapshot for diagnostics (spec sections 3 and 7). -/
inductive ConvergenceResult
  | success (snap : ClusterStatus)
  | timeout (last : Option ClusterStatus)
  | controlPlaneError (last : Option ClusterStatus)
  | commandRejected (last : Option ClusterStatus)
  | malformedStatus (last : Option ClusterStatus)
deriving DecidableEq, Repr

/-- Observable interactions of the task with the control plane. -/
inductive Event
  | getinfo
  | cmdSetAllowStandbyReplay (enabled : Bool)
  | cmdSetMaxMds (n : Nat)
  | poll
  | sleep (d : Nat)
deriving DecidableEq, Repr

/-- Number of rank assignments whose state is `active` (spec section 4.3 step b). -/
def activeCount (s : ClusterStatus) : Nat :=
  (s.ranks.filter (fun r => r.state == MdsState.active)).length

/-- A transitional daemon state: `stopping` or `starting` (spec section 4.3 step c). -/
def isTransitional (st : MdsState) : Bool :=
  st == MdsState.stopping || st == MdsState.starting

/-- Whether some daemon in the snapshot is in state standby-replay. -/
def hasStandbyReplay (s : ClusterStatus) : Bool :=
  s.ranks.any (fun r => r.state == MdsState.standbyReplay)

/-- Modelled from the spec (section 4.3 step c): the convergence test.
Converged when the active count equals the target `max_mds`, no rank is
transitional, and either standby-replay is allowed or no daemon is in
standby-replay state. -/
def convergedB (t : TargetConfig) (s : ClusterStatus) : Bool :=
  activeCount s == t.max_mds
    && !(s.ranks.any (fun r => isTransitional r.state))
    && (t.allow_standby_replay || !(hasStandbyReplay s))

/-- The last successfully observed snapshot after consuming a list of
read outcomes, starting from `init`. -/
def lastObserved (reads : List (Except Fault ClusterStatus))
    (init : Option ClusterStatus) : Option ClusterStatus :=
  reads.foldl
    (fun acc r =>
      match r with
      | Except.ok s => some s
      | Except.error _ => acc)
    init

/-- The trace produced by `k` consecutive transient-fault retries starting
at backoff exponent `attempt`: each retry polls and then sleeps for
`base * 2 ^ exponent`, doubling the delay each time. -/
def backoffTrace (base attempt : Nat) : Nat → List Event
  | 0 => []
  | Nat.succ k =>
      Event.poll :: Event.sleep (base * 2 ^ attempt) :: backoffTrace base (attempt + 1) k

/-- Modelled from the spec (section 4.3 steps 3-4 and section 7): the
convergence poll loop behind `Filesystem.reach_max_mds`, whose code is not
part of this fragment.  The environment supplies one read outcome per poll
iteration until the caller's deadline (`reads`; an exhausted list means
the deadline elapsed) and one outcome per corrective command issued
(`cmds`; `none` is acceptance, an exhausted list also means acceptance).
`retries` is the remaining transient-retry budget, `attempt` the backoff
exponent, `last` the last observed snapshot.  Per iteration: read; on
`ControlPlaneUnavailable` retry with exponential backoff while budget
remains, else surface a control-plane-error result; on `MalformedStatus`
or `CommandRejected` terminate immediately; on a successful read return
success if converged, reissue `setMaxRanks` on drift (observed `max_mds`
differing from the target), and otherwise keep polling. -/
def pollLoop (t : TargetConfig) (base : Nat) :
    List (Except Fault ClusterStatus) → List (Option Fault) → Nat → Nat →
    Option ClusterStatus → ConvergenceResult × List Event
  | [], _, _, _, last => (ConvergenceResult.timeout last, [])
  | Except.error Fault.controlPlaneUnavailable :: rest, cmds, retries, attempt, last =>
      match retries with
      | 0 => (ConvergenceResult.controlPlaneError last, [Event.poll])
      | Nat.succ r =>
          let next := pollLoop t base rest cmds r (attempt + 1) last
          (next.1, Event.poll :: Event.sleep (base * 2 ^ attempt) :: next.2)
  | Except.error Fault.commandRejected :: _, _, _, _, last =>
      (ConvergenceResult.commandRejected last, [Event.poll])
  | Except.error Fault.malformedStatus :: _, _, _, _, last =>
      (ConvergenceResult.malformedStatus last, [Event.poll])
  | Except.ok s :: rest, cmds, retries, attempt, _ =>
      if convergedB t s then
        (ConvergenceResult.success s, [Event.poll])
      else if s.max_mds ≠ t.max_mds then
        match cmds with
        | some Fault.commandRejected :: _ =>
            (ConvergenceResult.commandRejected (some s),
             [Event.poll, Event.cmdSetMaxMds t.max_mds])
        | some Fault.malformedStatus :: _ =>
            (ConvergenceResult.malformedStatus (some s),
             [Event.poll, Event.cmdSetMaxMds t.max_mds])
        | some Fault.controlPlaneUnavailable :: cs =>
            match retries with
            | 0 =>
                (ConvergenceResult.controlPlaneError (some s),
                 [Event.poll, Event.cmdSetMaxMds t.max_mds])
            | Nat.succ r =>
                let next := pollLoop t base rest cs r (attempt + 1) (some s)
                (next.1,
                 Event.poll :: Event.cmdSetMaxMds t.max_mds ::
                   Event.sleep (base * 2 ^ attempt) :: next.2)
        | none :: cs =>
            let next := pollLoop t base rest cs retries attempt (some s)
            (next.1, Event.poll :: Event.cmdSetMaxMds t.max_mds :: next.2)
        | [] =>
            let next := pollLoop t base rest [] retries attempt (some s)
            (next.1, Event.poll :: Event.cmdSetMaxMds t.max_mds :: next.2)
      else
        let next := pollLoop t base rest cmds retries attempt (some s)
        (next.1, Event.poll :: next.2)

/-- Commands issued before the poll loop starts (spec section 4.3 steps
1-2): disable standby-replay when the target forbids it, then set the
target rank count. -/
def preludeEvents (t : TargetConfig) : List Event :=
  (if t.allow_standby_replay then [] else [Event.cmdSetAllowStandbyReplay false])
    ++ [Event.cmdSetMaxMds t.max_mds]

/-- Modelled from the spec (sections 4.3 and 6): the caller-facing
convergence operation.  Issues the prelude commands, then runs the poll
loop with retry budget `budget` and backoff base `base`; returns the
typed result together with the trace of control-plane interactions. -/
def converge (t : TargetConfig) (budget base : Nat)
    (reads : List (Except Fault ClusterStatus)) (cmds : List (Option Fault)) :
    ConvergenceResult × List Event :=
  ((pollLoop t base reads cmds budget 0 none).1,
   preludeEvents t ++ (pollLoop t base reads cmds budget 0 none).2)

/-- Daemons known to the snapshot: those holding a rank plus the standbys. -/
def availableDaemons (s : ClusterStatus) : Nat :=
  s.ranks.length + s.standbys.length

/-- Modelled from the spec (section 4.2): `ConfigCommander.setMaxRanks`.
The control plane rejects a value below 1 or exceeding the available
daemons; an accepted command records the new `max_mds` value. -/
def setMaxRanks (n : Nat) (s : ClusterStatus) : Except Fault ClusterStatus :=
  if n < 1 ∨ availableDaemons s < n then Except.error Fault.commandRejected
  else Except.ok ⟨s.ranks, s.standbys, s.allow_standby_replay, n⟩

/-- The cluster configuration after issuing `setMaxRanks n`: a rejected
command leaves the configuration unchanged. -/
def applySetMaxRanks (n : Nat) (s : ClusterStatus) : ClusterStatus :=
  match setMaxRanks n s with
  | Except.ok s2 => s2
  | Except.error _ => s

/-- The Python `config` argument of `task`: `None`, a dict (its entries
modelled as number pairs; the task never reads them), or any other value. -/
inductive ConfigVal
  | cnone
  | cdict (entries : List (Nat × Nat))
  | cother
deriving DecidableEq, Repr

/-- Environment of one task execution: the snapshot returned by the
initial `fs.getinfo()` (assumed to succeed), and the read and command
outcome streams consumed by the convergence loop. -/
structure TaskEnv where
  info : ClusterStatus
  reads : List (Except Fault ClusterStatus)
  cmds : List (Option Fault)

/-- Outcome of one task execution. -/
inductive TaskOutcome
  | assertionError
  | done (r : ConvergenceResult)
deriving DecidableEq, Repr

/-- Embedding of `task(ctx, config)` from `qa/tasks/mds_pre_upgrade.py`:
`None` config is replaced by the empty dict; a non-dict config fails the
assertion before anything is issued; otherwise the task reads the cluster
status once (binding it without using it), disables standby-replay, sets
`max_mds` to 1 and waits for convergence (`reach_max_mds`, modelled by
`converge` toward the target of 1 active rank, standby-replay disabled). -/
def task (budget base : Nat) (cfg : ConfigVal) (env : TaskEnv) :
    List Event × TaskOutcome :=
  let cfg2 := match cfg with
    | ConfigVal.cnone => ConfigVal.cdict []
    | c => c
  match cfg2 with
  | ConfigVal.cdict _ =>
      let _status := env.info
      let c := converge ⟨1, false⟩ budget base env.reads env.cmds
      (Event.getinfo :: c.2, TaskOutcome.done c.1)
  | _ => ([], TaskOutcome.assertionError)

/-- The same program with the dead `status = fs.getinfo()` read removed. -/
def taskNoRead (budget base : Nat) (cfg : ConfigVal) (env : TaskEnv) :
    List Event × TaskOutcome :=
  let cfg2 := match cfg with
    | ConfigVal.cnone => ConfigVal.cdict []
    | c => c
  match cfg2 with
  | ConfigVal.cdict _ =>
      let c := converge ⟨1, false⟩ budget base env.reads env.cmds
      (c.2, TaskOutcome.done c.1)
  | _ => ([], TaskOutcome.assertionError)

/-- Recognises a standby-replay configuration command in a trace. -/
def isSasr : Event → Bool
  | Event.cmdSetAllowStandbyReplay _ => true
  | _ => false

/-- Recognises a set-max-ranks command in a trace. -/
def isSetMaxMds : Event → Bool
  | Event.cmdSetMaxMds _ => true
  | _ => false

/-- A two-active-rank snapshot whose recorded `max_mds` (2) drifts from
the pre-upgrade target of 1. -/
def driftStatus : ClusterStatus :=
  ⟨[⟨0, 10, MdsState.active⟩, ⟨1, 11, MdsState.active⟩], [], false, 2⟩

/-- An environment whose single poll observes `driftStatus`. -/
def driftEnv : TaskEnv :=
  ⟨driftStatus, [Except.ok driftStatus], []⟩

/-- A converged snapshot: one active rank, `max_mds` 1, no standby-replay. -/
def convergedSnap : ClusterStatus :=
  ⟨[⟨0, 10, MdsState.active⟩], [], false, 1⟩

/-- A snapshot still mid-transition: rank 0 active, rank 1 stopping. -/
def stoppingSnap : ClusterStatus :=
  ⟨[⟨0, 10, MdsState.active⟩, ⟨1, 11, MdsState.stopping⟩], [], false, 1⟩

lemma convergedB_iff (t : TargetConfig) (s : ClusterStatus) :
    convergedB t s = true ↔
      activeCount s = t.max_mds
      ∧ (∀ r ∈ s.ranks, r.state ≠ MdsState.stopping ∧ r.state ≠ MdsState.starting)
      ∧ (t.allow_standby_replay = true ∨ ∀ r ∈ s.ranks, r.state ≠ MdsState.standbyReplay) := by
  simp only [convergedB, isTransitional, hasStandbyReplay, List.any_eq_true, beq_iff_eq,
    Bool.or_eq_true, Bool.and_eq_true, Bool.not_eq_true', List.any_eq_false, not_or]
  tauto

lemma pollLoop_fst_success (t : TargetConfig) (base : Nat) :
    ∀ (reads : List (Except Fault ClusterStatus)) (cmds : List (Option Fault))
      (retries attempt : Nat) (last : Option ClusterStatus) (s : ClusterStatus),
      (pollLoop t base reads cmds retries attempt last).1 = ConvergenceResult.success s →
      convergedB t s = true := by
  intro reads
  induction reads with
  | nil =>
      intro cmds retries attempt last s h
      simp [pollLoop] at h
  | cons r rest ih =>
      intro cmds retries attempt last s h
      match r with
      | Except.error Fault.controlPlaneUnavailable =>
          match retries with
          | 0 => simp [pollLoop] at h
          | Nat.succ rr =>
              simp only [pollLoop] at h
              exact ih cmds rr (attempt + 1) last s h
      | Except.error Fault.commandRejected => simp [pollLoop] at h
      | Except.error Fault.malformedStatus => simp [pollLoop] at h
      | Except.ok s0 =>
          simp only [pollLoop] at h
          by_cases hc : convergedB t s0 = true
          · rw [if_pos hc] at h
            cases h
            exact hc
          · rw [if_neg hc] at h
            by_cases hd : s0.max_mds ≠ t.max_mds
            · rw [if_pos hd] at h
              match cmds with
              | some Fault.commandRejected :: _ => cases h
              | some Fault.malformedStatus :: _ => cases h
              | some Fault.controlPlaneUnavailable :: cs =>
                  match retries with
                  | 0 => cases h
                  | Nat.succ rr => exact ih cs rr (attempt + 1) (some s0) s h
              | none :: cs => exact ih cs retries attempt (some s0) s h
              | [] => exact ih [] retries attempt (some s0) s h
            · rw [if_neg hd] at h
              exact ih cmds retries attempt (some s0) s h

lemma pollLoop_events_mem (t : TargetConfig) (base : Nat) :
    ∀ (reads : List (Except Fault ClusterStatus)) (cmds : List (Option Fault))
      (retries attempt : Nat) (last : Option ClusterStatus) (e : Event),
      e ∈ (pollLoop t base reads cmds retries attempt last).2 →
      e = Event.poll ∨ (∃ d, e = Event.sleep d) ∨ e = Event.cmdSetMaxMds t.max_mds := by
  intro reads
  induction reads with
  | nil =>
      intro cmds retries attempt last e h
      simp [pollLoop] at h
  | cons r rest ih =>
      intro cmds retries attempt last e h
      match r with
      | Except.error Fault.controlPlaneUnavailable =>
          match retries with
          | 0 =>
              simp [pollLoop] at h
              exact Or.inl h
          | Nat.succ rr =>
              simp only [pollLoop, List.mem_cons] at h
              rcases h with h | h | h
              · exact Or.inl h
              · exact Or.inr (Or.inl ⟨_, h⟩)
              · exact ih cmds rr (attempt + 1) last e h
      | Except.error Fault.commandRejected =>
          simp [pollLoop] at h
          exact Or.inl h
      | Except.error Fault.malformedStatus =>
          simp [pollLoop] at h
          exact Or.inl h
      | Except.ok s0 =>
          simp only [pollLoop] at h
          by_cases hc : convergedB t s0 = true
          · rw [if_pos hc] at h
            simp at h
            exact Or.inl h
          · rw [if_neg hc] at h
            by_cases hd : s0.max_mds ≠ t.max_mds
            · rw [if_pos hd] at h
              match cmds with
              | some Fault.commandRejected :: _ =>
                  simp at h
                  rcases h with h | h
                  · exact Or.inl h
                  · exact Or.inr (Or.inr h)
              | some Fault.malformedStatus :: _ =>
                  simp at h
                  rcases h with h | h
                  · exact Or.inl h
                  · exact Or.inr (Or.inr h)
              | some Fault.controlPlaneUnavailable :: cs =>
                  match retries with
                  | 0 =>
                      simp at h
                      rcases h with h | h
                      · exact Or.inl h
                      · exact Or.inr (Or.inr h)
                  | Nat.succ rr =>
                      simp only [List.mem_cons] at h
                      rcases h with h | h | h | h
                      · exact Or.inl h
                      · exact Or.inr (Or.inr h)
                      · exact Or.inr (Or.inl ⟨_, h⟩)
                      · exact ih cs rr (attempt + 1) (some s0) e h
              | none :: cs =>
                  simp only [List.mem_cons] at h
                  rcases h with h | h | h
                  · exact Or.inl h
                  · exact Or.inr (Or.inr h)
                  · exact ih cs retries attempt (some s0) e h
              | [] =>
                  simp only [List.mem_cons] at h
                  rcases h with h | h | h
                  · exact Or.inl h
                  · exact Or.inr (Or.inr h)
                  · exact ih [] retries attempt (some s0) e h
            · rw [if_neg hd] at h
              simp only [List.mem_cons] at h
              rcases h with h | h
              · exact Or.inl h
              · exact ih cmds retries attempt (some s0) e h

lemma pollLoop_fst_timeout (t : TargetConfig) (base : Nat) :
    ∀ (reads : List (Except Fault ClusterStatus)),
      (reads.all fun r => match r with
        | Except.ok s => !convergedB t s
        | Except.error _ => false) = true →
    ∀ (cmds : List (Option Fault)), (cmds.all fun c => c == none) = true →
    ∀ (retries attempt : Nat) (init : Option ClusterStatus),
      (pollLoop t base reads cmds retries attempt init).1
        = ConvergenceResult.timeout (lastObserved reads init) := by
  intro reads
  induction reads with
  | nil =>
      intro _ cmds _ retries attempt init
      rfl
  | cons r rest ih =>
      intro hr cmds hcmds retries attempt init
      simp only [List.all_cons, Bool.and_eq_true] at hr
      match r with
      | Except.error f => simp at hr
      | Except.ok s0 =>
          have hc : ¬ convergedB t s0 = true := by
            simp only [Bool.not_eq_true'] at hr
            simp [hr.1]
          have hrest := hr.2
          simp only [pollLoop]
          rw [if_neg hc]
          have hlast : lastObserved (Except.ok s0 :: rest) init = lastObserved rest (some s0) := rfl
          by_cases hd : s0.max_mds ≠ t.max_mds
          · rw [if_pos hd]
            match cmds with
            | [] =>
                rw [hlast]
                exact ih hrest [] rfl retries attempt (some s0)
            | c :: cs =>
                simp only [List.all_cons, Bool.and_eq_true, beq_iff_eq] at hcmds
                rw [hcmds.1]
                rw [hlast]
                exact ih hrest cs (by simp [List.all_eq_true]; intro c hc2; have := hcmds.2; simp [List.all_eq_true] at this; exact this c hc2) retries attempt (some s0)
          · rw [if_neg hd]
            rw [hlast]
            exact ih hrest cmds hcmds retries attempt (some s0)

lemma pollLoop_cpu_retries (t : TargetConfig) (base : Nat) :
    ∀ (k : Nat) (rest : List (Except Fault ClusterStatus)) (cmds : List (Option Fault))
      (retries attempt : Nat) (last : Option ClusterStatus), k ≤ retries →
      pollLoop t base
          (List.replicate k (Except.error Fault.controlPlaneUnavailable) ++ rest)
          cmds retries attempt last
        = ((pollLoop t base rest cmds (retries - k) (attempt + k) last).1,
           backoffTrace base attempt k
             ++ (pollLoop t base rest cmds (retries - k) (attempt + k) last).2) := by
  intro k
  induction k with
  | zero =>
      intro rest cmds retries attempt last _
      simp [backoffTrace]
  | succ k ih =>
      intro rest cmds retries attempt last hk
      match retries with
      | 0 => exact absurd hk (Nat.not_succ_le_zero k)
      | Nat.succ rr =>
          have hk' : k ≤ rr := Nat.succ_le_succ_iff.mp hk
          simp only [List.replicate_succ, List.cons_append, pollLoop]
          simp only [List.append_eq]
          rw [ih rest cmds rr (attempt + 1) last hk']
          have h1 : Nat.succ rr - Nat.succ k = rr - k := Nat.succ_sub_succ rr k
          have h2 : attempt + Nat.succ k = attempt + 1 + k := by omega
          rw [h1, h2]
          rfl

/-- Claim C1: the convergence operation reports success only when the
observed snapshot has exactly the target number of active ranks, no rank
in a transitional state, and either standby-replay allowed or no daemon in
standby-replay; in particular a transitional rank forbids success. -/
theorem mds_C1 (t : TargetConfig) (budget base : Nat)
    (reads : List (Except Fault ClusterStatus)) (cmds : List (Option Fault))
    (s : ClusterStatus)
    (h : (converge t budget base reads cmds).1 = ConvergenceResult.success s) :
    activeCount s = t.max_mds
    ∧ (∀ r ∈ s.ranks, r.state ≠ MdsState.stopping ∧ r.state ≠ MdsState.starting)
    ∧ (t.allow_standby_replay = true
        ∨ ∀ r ∈ s.ranks, r.state ≠ MdsState.standbyReplay) :=
  (convergedB_iff t s).mp (pollLoop_fst_success t base reads cmds budget 0 none s h)

theorem mds_C1_witness :
    activeCount convergedSnap = 1
    ∧ (∀ r ∈ convergedSnap.ranks, r.state ≠ MdsState.stopping ∧ r.state ≠ MdsState.starting)
    ∧ (false = true ∨ ∀ r ∈ convergedSnap.ranks, r.state ≠ MdsState.standbyReplay) :=
  mds_C1 ⟨1, false⟩ 0 1 [Except.ok convergedSnap] [] convergedSnap rfl

theorem mds_C2_counterexample :
    ¬ ((task 3 1 (ConfigVal.cdict []) driftEnv).1.filter isSetMaxMds).length = 1 := by
  decide

/-- Claim C2 (amended): the standby-replay-disabling command is issued
exactly once, before the first set-max-ranks command; the set-max-ranks
command is issued (with the target value) before any convergence polling
begins, and may be issued again during polling (self-healing on drift). -/
theorem mds_C2_amended (budget base : Nat) (d : List (Nat × Nat)) (env : TaskEnv) :
    ((task budget base (ConfigVal.cdict d) env).1.filter isSasr).length = 1
    ∧ ∃ levs,
        (task budget base (ConfigVal.cdict d) env).1
          = Event.getinfo :: Event.cmdSetAllowStandbyReplay false
              :: Event.cmdSetMaxMds 1 :: levs
        ∧ ∀ e ∈ levs,
            e = Event.poll ∨ (∃ dur, e = Event.sleep dur) ∨ e = Event.cmdSetMaxMds 1 := by
  have hshape : (task budget base (ConfigVal.cdict d) env).1
      = Event.getinfo :: Event.cmdSetAllowStandbyReplay false :: Event.cmdSetMaxMds 1
          :: (pollLoop ⟨1, false⟩ base env.reads env.cmds budget 0 none).2 := rfl
  refine ⟨?_, (pollLoop ⟨1, false⟩ base env.reads env.cmds budget 0 none).2, hshape, ?_⟩
  · rw [hshape]
    have hnil : ((pollLoop ⟨1, false⟩ base env.reads env.cmds budget 0 none).2).filter isSasr
        = [] := by
      rw [List.filter_eq_nil_iff]
      intro e he
      rcases pollLoop_events_mem ⟨1, false⟩ base env.reads env.cmds budget 0 none e he
        with h | ⟨d2, h⟩ | h <;> subst h <;> simp [isSasr]
    simp [List.filter, isSasr, hnil]
  · intro e he
    rcases pollLoop_events_mem ⟨1, false⟩ base env.reads env.cmds budget 0 none e he
      with h | ⟨d2, h⟩ | h
    · exact Or.inl h
    · exact Or.inr (Or.inl ⟨d2, h⟩)
    · exact Or.inr (Or.inr h)

theorem mds_C2_witness :
    ((task 2 1 (ConfigVal.cdict []) ⟨⟨[], [], false, 0⟩, [], []⟩).1.filter isSasr).length = 1 :=
  (mds_C2_amended 2 1 [] ⟨⟨[], [], false, 0⟩, [], []⟩).1

/-- Claim C3: when the cluster never reaches the target within the
deadline (every poll observes a non-converged snapshot) and no command is
refused, the operation returns exactly the timeout result carrying the
last observed snapshot. -/
theorem mds_C3 (t : TargetConfig) (budget base : Nat)
    (reads : List (Except Fault ClusterStatus)) (cmds : List (Option Fault))
    (hreads : (reads.all fun r => match r with
      | Except.ok s => !convergedB t s
      | Except.error _ => false) = true)
    (hcmds : (cmds.all fun c => c == none) = true) :
    (converge t budget base reads cmds).1
      = ConvergenceResult.timeout (lastObserved reads none) :=
  pollLoop_fst_timeout t base reads hreads cmds hcmds budget 0 none

theorem mds_C3_witness :
    (converge ⟨1, false⟩ 2 1 [Except.ok stoppingSnap] []).1
      = ConvergenceResult.timeout (lastObserved [Except.ok stoppingSnap] none) :=
  mds_C3 ⟨1, false⟩ 2 1 [Except.ok stoppingSnap] [] (by decide) (by decide)

/-- Claim C4: a ControlPlaneUnavailable fault — whether from a read or
from a command reissued on drift — is retried against the bounded budget
with exponentially doubling backoff sleeps before being surfaced as a
control-plane-error result, while CommandRejected and MalformedStatus
faults (from a read or a reissued command) terminate the loop immediately
without any retry. -/
theorem mds_C4 (t : TargetConfig) (base : Nat)
    (rest : List (Except Fault ClusterStatus)) (cmds : List (Option Fault))
    (retries attempt : Nat) (last : Option ClusterStatus) :
    (∀ k, k ≤ retries →
      pollLoop t base
          (List.replicate k (Except.error Fault.controlPlaneUnavailable) ++ rest)
          cmds retries attempt last
        = ((pollLoop t base rest cmds (retries - k) (attempt + k) last).1,
           backoffTrace base attempt k
             ++ (pollLoop t base rest cmds (retries - k) (attempt + k) last).2))
    ∧ (pollLoop t base (Except.error Fault.controlPlaneUnavailable :: rest) cmds 0 attempt last).1
        = ConvergenceResult.controlPlaneError last
    ∧ (pollLoop t base (Except.error Fault.commandRejected :: rest) cmds retries attempt last).1
        = ConvergenceResult.commandRejected last
    ∧ (pollLoop t base (Except.error Fault.malformedStatus :: rest) cmds retries attempt last).1
        = ConvergenceResult.malformedStatus last
    ∧ (∀ s : ClusterStatus, convergedB t s = false → ¬ s.max_mds = t.max_mds →
        (pollLoop t base (Except.ok s :: rest)
            (some Fault.commandRejected :: cmds) retries attempt last).1
          = ConvergenceResult.commandRejected (some s))
    ∧ (∀ s : ClusterStatus, convergedB t s = false → ¬ s.max_mds = t.max_mds →
        (pollLoop t base (Except.ok s :: rest)
            (some Fault.malformedStatus :: cmds) retries attempt last).1
          = ConvergenceResult.malformedStatus (some s))
    ∧ (∀ s : ClusterStatus, convergedB t s = false → ¬ s.max_mds = t.max_mds →
        (pollLoop t base (Except.ok s :: rest)
            (some Fault.controlPlaneUnavailable :: cmds) 0 attempt last).1
          = ConvergenceResult.controlPlaneError (some s))
    ∧ (∀ (s : ClusterStatus) (r : Nat), convergedB t s = false → ¬ s.max_mds = t.max_mds →
        pollLoop t base (Except.ok s :: rest)
            (some Fault.controlPlaneUnavailable :: cmds) (r + 1) attempt last
          = ((pollLoop t base rest cmds r (attempt + 1) (some s)).1,
             Event.poll :: Event.cmdSetMaxMds t.max_mds ::
               Event.sleep (base * 2 ^ attempt)
                 :: (pollLoop t base rest cmds r (attempt + 1) (some s)).2)) := by
  refine ⟨fun k hk => pollLoop_cpu_retries t base k rest cmds retries attempt last hk,
    rfl, rfl, rfl, ?_, ?_, ?_, ?_⟩
  · intro s hc hd
    simp only [pollLoop]
    rw [if_neg (by simp [hc]), if_pos hd]
  · intro s hc hd
    simp only [pollLoop]
    rw [if_neg (by simp [hc]), if_pos hd]
  · intro s hc hd
    simp only [pollLoop]
    rw [if_neg (by simp [hc]), if_pos hd]
  · intro s r hc hd
    simp only [pollLoop]
    rw [if_neg (by simp [hc]), if_pos hd]

theorem mds_C4_witness :
    pollLoop ⟨1, false⟩ 1
        (List.replicate 2 (Except.error Fault.controlPlaneUnavailable)) [] 3 0 none
      = ((pollLoop ⟨1, false⟩ 1 [] [] 1 2 none).1,
         backoffTrace 1 0 2 ++ (pollLoop ⟨1, false⟩ 1 [] [] 1 2 none).2) := by
  have h := (mds_C4 ⟨1, false⟩ 1 [] [] 3 0 none).1 2 (by decide)
  simpa using h

/-- Claim C5: non-transient faults (CommandRejected and MalformedStatus,
whether from a read or from a command reissued on drift) and an elapsed
deadline (Timeout) are all returned to the caller as typed
ConvergenceResult values of the matching kind — the operation is a total
function into ConvergenceResult, so no fault crosses the API boundary as
an exception. -/
theorem mds_C5 (t : TargetConfig) (budget base retries attempt : Nat)
    (cmds : List (Option Fault)) (last : Option ClusterStatus) :
    ((converge t budget base [] cmds).1 = ConvergenceResult.timeout none)
    ∧ (∀ rest, (converge t budget base (Except.error Fault.commandRejected :: rest) cmds).1
        = ConvergenceResult.commandRejected none)
    ∧ (∀ rest, (converge t budget base (Except.error Fault.malformedStatus :: rest) cmds).1
        = ConvergenceResult.malformedStatus none)
    ∧ ((pollLoop t base [] cmds retries attempt last).1 = ConvergenceResult.timeout last)
    ∧ (∀ rest, (pollLoop t base (Except.error Fault.commandRejected :: rest)
          cmds retries attempt last).1 = ConvergenceResult.commandRejected last)
    ∧ (∀ rest, (pollLoop t base (Except.error Fault.malformedStatus :: rest)
          cmds retries attempt last).1 = ConvergenceResult.malformedStatus last)
    ∧ (∀ (s : ClusterStatus) rest cs, convergedB t s = false → ¬ s.max_mds = t.max_mds →
        (pollLoop t base (Except.ok s :: rest)
            (some Fault.commandRejected :: cs) retries attempt last).1
          = ConvergenceResult.commandRejected (some s))
    ∧ (∀ (s : ClusterStatus) rest cs, convergedB t s = false → ¬ s.max_mds = t.max_mds →
        (pollLoop t base (Except.ok s :: rest)
            (some Fault.malformedStatus :: cs) retries attempt last).1
          = ConvergenceResult.malformedStatus (some s)) := by
  refine ⟨rfl, fun _ => rfl, fun _ => rfl, rfl, fun _ => rfl, fun _ => rfl, ?_, ?_⟩
  · intro s rest cs hc hd
    simp only [pollLoop]
    rw [if_neg (by simp [hc]), if_pos hd]
  · intro s rest cs hc hd
    simp only [pollLoop]
    rw [if_neg (by simp [hc]), if_pos hd]

theorem mds_C5_witness :
    (pollLoop ⟨1, false⟩ 1
        [Except.ok (⟨[⟨0, 10, MdsState.active⟩, ⟨1, 11, MdsState.active⟩], [], false, 2⟩
          : ClusterStatus)]
        [some Fault.commandRejected] 2 0 none).1
      = ConvergenceResult.commandRejected
          (some ⟨[⟨0, 10, MdsState.active⟩, ⟨1, 11, MdsState.active⟩], [], false, 2⟩) :=
  (mds_C5 ⟨1, false⟩ 0 1 2 0 [] none).2.2.2.2.2.2.1
    ⟨[⟨0, 10, MdsState.active⟩, ⟨1, 11, MdsState.active⟩], [], false, 2⟩ [] []
    (by decide) (by decide)

/-- Claim C6: the pre-upgrade task drives the cluster toward the fixed
target of 1 active rank with standby-replay disabled: it issues the
standby-replay command with value false and the max-ranks command with
value 1, and every such command in the trace carries those values. -/
theorem mds_C6 (budget base : Nat) (d : List (Nat × Nat)) (env : TaskEnv) :
    Event.cmdSetAllowStandbyReplay false ∈ (task budget base (ConfigVal.cdict d) env).1
    ∧ Event.cmdSetMaxMds 1 ∈ (task budget base (ConfigVal.cdict d) env).1
    ∧ (∀ b, Event.cmdSetAllowStandbyReplay b ∈ (task budget base (ConfigVal.cdict d) env).1
        → b = false)
    ∧ (∀ n, Event.cmdSetMaxMds n ∈ (task budget base (ConfigVal.cdict d) env).1
        → n = 1) := by
  have hshape : (task budget base (ConfigVal.cdict d) env).1
      = Event.getinfo :: Event.cmdSetAllowStandbyReplay false :: Event.cmdSetMaxMds 1
          :: (pollLoop ⟨1, false⟩ base env.reads env.cmds budget 0 none).2 := rfl
  refine ⟨by rw [hshape]; simp, by rw [hshape]; simp, ?_, ?_⟩
  · intro b hb
    rw [hshape] at hb
    simp only [List.mem_cons] at hb
    rcases hb with h | h | h | h
    · exact absurd h (by simp)
    · injection h
    · exact absurd h (by simp)
    · rcases pollLoop_events_mem ⟨1, false⟩ base env.reads env.cmds budget 0 none _ h
        with h2 | ⟨d2, h2⟩ | h2 <;> simp at h2
  · intro n hn
    rw [hshape] at hn
    simp only [List.mem_cons] at hn
    rcases hn with h | h | h | h
    · exact absurd h (by simp)
    · exact absurd h (by simp)
    · injection h
    · rcases pollLoop_events_mem ⟨1, false⟩ base env.reads env.cmds budget 0 none _ h
        with h2 | ⟨d2, h2⟩ | h2
      · exact absurd h2 (by simp)
      · exact absurd h2 (by simp)
      · injection h2

theorem mds_C6_witness :
    Event.cmdSetAllowStandbyReplay false
        ∈ (task 1 1 (ConfigVal.cdict [(5, 7)]) ⟨⟨[], [], true, 0⟩, [], []⟩).1
    ∧ Event.cmdSetMaxMds 1
        ∈ (task 1 1 (ConfigVal.cdict [(5, 7)]) ⟨⟨[], [], true, 0⟩, [], []⟩).1 :=
  ⟨(mds_C6 1 1 [(5, 7)] ⟨⟨[], [], true, 0⟩, [], []⟩).1,
   (mds_C6 1 1 [(5, 7)] ⟨⟨[], [], true, 0⟩, [], []⟩).2.1⟩

/-- Claim C7: setMaxRanks is idempotent — for any n at least 1, issuing it
twice in a row yields the same final cluster configuration as issuing it
once (a rejected command leaves the configuration unchanged). -/
theorem mds_C7 (n : Nat) (s : ClusterStatus) (h : 1 ≤ n) :
    applySetMaxRanks n (applySetMaxRanks n s) = applySetMaxRanks n s := by
  have hn : ¬ n < 1 := Nat.not_lt.mpr h
  by_cases hav : availableDaemons s < n
  · have h1 : applySetMaxRanks n s = s := by
      unfold applySetMaxRanks setMaxRanks
      rw [if_pos (Or.inr hav)]
    rw [h1, h1]
  · have hrej : ¬ (n < 1 ∨ availableDaemons s < n) := not_or.mpr ⟨hn, hav⟩
    have h1 : applySetMaxRanks n s
        = ⟨s.ranks, s.standbys, s.allow_standby_replay, n⟩ := by
      unfold applySetMaxRanks setMaxRanks
      rw [if_neg hrej]
    have hrej2 : ¬ (n < 1
        ∨ availableDaemons ⟨s.ranks, s.standbys, s.allow_standby_replay, n⟩ < n) := by
      simpa [availableDaemons] using hrej
    have h2 : applySetMaxRanks n
        (⟨s.ranks, s.standbys, s.allow_standby_replay, n⟩ : ClusterStatus)
        = ⟨s.ranks, s.standbys, s.allow_standby_replay, n⟩ := by
      unfold applySetMaxRanks setMaxRanks
      rw [if_neg hrej2]
    rw [h1, h2]

theorem mds_C7_witness :
    applySetMaxRanks 1 (applySetMaxRanks 1 ⟨[⟨0, 5, MdsState.active⟩], [6], false, 2⟩)
      = applySetMaxRanks 1 ⟨[⟨0, 5, MdsState.active⟩], [6], false, 2⟩ :=
  mds_C7 1 ⟨[⟨0, 5, MdsState.active⟩], [6], false, 2⟩ (by decide)

/-- Claim C8: the task fails its assertion exactly when config is neither
None nor a dict, issuing nothing before the failure, and a None config is
treated exactly as the empty dict. -/
theorem mds_C8 (budget base : Nat) (cfg : ConfigVal) (env : TaskEnv) :
    ((task budget base cfg env).2 = TaskOutcome.assertionError ↔ cfg = ConfigVal.cother)
    ∧ ((task budget base cfg env).2 = TaskOutcome.assertionError →
        (task budget base cfg env).1 = [])
    ∧ task budget base ConfigVal.cnone env = task budget base (ConfigVal.cdict []) env := by
  refine ⟨?_, ?_, rfl⟩ <;> cases cfg <;> simp [task]

theorem mds_C8_witness :
    ((task 1 1 ConfigVal.cother ⟨⟨[], [], false, 0⟩, [], []⟩).2 = TaskOutcome.assertionError
        ↔ ConfigVal.cother = ConfigVal.cother)
    ∧ ((task 1 1 ConfigVal.cother ⟨⟨[], [], false, 0⟩, [], []⟩).2 = TaskOutcome.assertionError →
        (task 1 1 ConfigVal.cother ⟨⟨[], [], false, 0⟩, [], []⟩).1 = [])
    ∧ task 1 1 ConfigVal.cnone ⟨⟨[], [], false, 0⟩, [], []⟩
        = task 1 1 (ConfigVal.cdict []) ⟨⟨[], [], false, 0⟩, [], []⟩ :=
  mds_C8 1 1 ConfigVal.cother ⟨⟨[], [], false, 0⟩, [], []⟩

/-- Claim C9: the initial cluster-status read is dead — the task's
behaviour does not depend on the snapshot it returns, and the task is
extensionally equal to the same program with the read removed (its trace
differs only by the read event itself). -/
theorem mds_C9 (budget base : Nat) (cfg : ConfigVal) (env : TaskEnv) (i : ClusterStatus) :
    task budget base cfg ⟨i, env.reads, env.cmds⟩ = task budget base cfg env
    ∧ (task budget base cfg env).2 = (taskNoRead budget base cfg env).2
    ∧ (task budget base cfg env).1.filter (fun e => !(e == Event.getinfo))
        = (taskNoRead budget base cfg env).1 := by
  have hkeep : ((pollLoop ⟨1, false⟩ base env.reads env.cmds budget 0 none).2).filter
      (fun e => !(e == Event.getinfo))
      = (pollLoop ⟨1, false⟩ base env.reads env.cmds budget 0 none).2 := by
    rw [List.filter_eq_self]
    intro e he
    rcases pollLoop_events_mem ⟨1, false⟩ base env.reads env.cmds budget 0 none e he
      with h | ⟨d2, h⟩ | h <;> subst h <;> rfl
  refine ⟨?_, ?_, ?_⟩ <;> cases cfg
  · rfl
  · rfl
  · rfl
  · rfl
  · rfl
  · rfl
  · show Event.cmdSetAllowStandbyReplay false :: Event.cmdSetMaxMds 1
        :: ((pollLoop ⟨1, false⟩ base env.reads env.cmds budget 0 none).2).filter
            (fun e => !(e == Event.getinfo))
      = Event.cmdSetAllowStandbyReplay false :: Event.cmdSetMaxMds 1
        :: (pollLoop ⟨1, false⟩ base env.reads env.cmds budget 0 none).2
    rw [hkeep]
  · show Event.cmdSetAllowStandbyReplay false :: Event.cmdSetMaxMds 1
        :: ((pollLoop ⟨1, false⟩ base env.reads env.cmds budget 0 none).2).filter
            (fun e => !(e == Event.getinfo))
      = Event.cmdSetAllowStandbyReplay false :: Event.cmdSetMaxMds 1
        :: (pollLoop ⟨1, false⟩ base env.reads env.cmds budget 0 none).2
    rw [hkeep]
  · rfl

/-- Claim C10: the contents of a dict config have no influence — any two
dict configs yield the identical trace and result. -/
theorem mds_C10 (budget base : Nat) (d1 d2 : List (Nat × Nat)) (env : TaskEnv) :
    task budget base (ConfigVal.cdict d1) env = task budget base (ConfigVal.cdict d2) env :=
  rfl
